import Mathlib

/-!
Shallow embedding of the state-management logic of learn-react-redux
(src/src/index.js): the three field reducers, the combined root reducer,
store construction, the container mapping functions and the presentational
message computation.  JavaScript `undefined` is modelled by `Option.none`;
JavaScript default parameter values are applied explicitly at the top of
each reducer, as the runtime does when the argument is `undefined`.
-/

namespace LearnReactRedux

/-- A redux action: a `type` tag plus the one payload field this app ever
uses (`data`); `none` models an absent or `undefined` payload. -/
structure Action where
  type : String
  data : Option String
  deriving Repr, DecidableEq

/-- The store state as JavaScript sees it: each field may be `undefined`
(`none`), e.g. in a partial preloaded state that omits a key. -/
structure JsState where
  data : Option String
  success : Option Bool
  renderCount : Option Int
  deriving Repr, DecidableEq

/-- The fully-defined state record of the data model:
data, success, renderCount all present. -/
structure State where
  data : String
  success : Bool
  renderCount : Int
  deriving Repr, DecidableEq

/-- View a fully-defined state as a JavaScript-level state. -/
def State.toJs (s : State) : JsState :=
  { data := some s.data, success := some s.success, renderCount := some s.renderCount }

/-- `dataReducer (state = '', action)` from src/src/index.js: on
CHANGE_DATA returns `action.data` (possibly absent), otherwise returns the
incoming state, with the default parameter applied first. -/
def dataReducer (stateArg : Option String) (action : Action) : Option String :=
  let state : String := stateArg.getD ""
  match action.type with
  | "CHANGE_DATA" => action.data
  | _ => some state

/-- `successReducer (state = false, action)` from src/src/index.js: on
CHANGE_DATA returns true, otherwise returns the incoming state. -/
def successReducer (stateArg : Option Bool) (action : Action) : Bool :=
  let state : Bool := stateArg.getD false
  match action.type with
  | "CHANGE_DATA" => true
  | _ => state

/-- `countReducer (state = 0, action)` from src/src/index.js: on
CHANGE_DATA returns `++state`, which in JavaScript rebinds the local
parameter and yields the prior value plus one, otherwise returns the
incoming state. -/
def countReducer (stateArg : Option Int) (action : Action) : Int :=
  let state : Int := stateArg.getD 0
  match action.type with
  | "CHANGE_DATA" => state + 1
  | _ => state

/-- Modelled from the spec: the reducer combinator (redux
`combineReducers`, external library code not in src/).  Per the spec, for
every key it invokes the corresponding field-reducer with the value at
that key (or with `undefined` when the whole state is `undefined`) and the
action, and assembles the results into a new record, performing no
defaulting and no validation itself.  This is the root reducer bound to
`reduxApp` in src/src/index.js. -/
def reduxApp (state : Option JsState) (action : Action) : JsState :=
  { data := dataReducer (state.bind JsState.data) action
    success := some (successReducer (state.bind JsState.success) action)
    renderCount := some (countReducer (state.bind JsState.renderCount) action) }

/-- The `initialState` constant from src/src/index.js: it sets renderCount
and success and omits the data key. -/
def initialState : JsState :=
  { data := none, success := some false, renderCount := some 0 }

/-- Modelled from the spec: the store constructor (redux `createStore`,
external library code not in src/) probes the root reducer once with an
initialization action whose type is unrecognized, starting from the
preloaded state (`none` when no initial state is supplied); the result is
the state of the freshly constructed store. -/
def createStoreState (preloaded : Option JsState) : JsState :=
  reduxApp preloaded { type := "@@redux/INIT", data := none }

/-- `configureStore` from src/src/index.js builds the store from
`reduxApp` and `initialState`; this is the state it holds right after
construction. -/
def configureStore : JsState :=
  createStoreState (some initialState)

/-- `dispatch` of the constructed store: replace the current state by the
root reducer applied to it and the action. -/
def dispatch (s : JsState) (a : Action) : JsState :=
  reduxApp (some s) a

/-- Dispatch a sequence of actions in order. -/
def dispatchAll (s : JsState) (l : List Action) : JsState :=
  l.foldl dispatch s

/-- The props that `mapStateToProps` derives from the store state. -/
structure StateProps where
  data : Option String
  success : Option Bool
  count : Option Int
  deriving Repr, DecidableEq

/-- `mapStateToProps` from src/src/index.js. -/
def mapStateToProps (state : JsState) : StateProps :=
  { data := state.data, success := state.success, count := state.renderCount }

/-- JavaScript truthiness of a possibly-undefined boolean, as used by the
conditional expression in the Presenter. -/
def truthy : Option Bool → Bool
  | none => false
  | some b => b

/-- The message computed by the `Presenter` component in src/src/index.js:
`success ? data : "We don\x27t have data to show."`. -/
def presenterMessage (success : Bool) (data : Option String) : Option String :=
  if success then data else some "We don\x27t have data to show."

/-- The callback props produced by `mapDispatchToProps`.  The state type
is abstract because the component only ever calls the `dispatch` it was
handed; instantiating it with a logging state exposes exactly which
actions a callback dispatches. -/
structure DispatchProps (σ : Type) where
  callbackFunc : σ → σ

/-- `mapDispatchToProps` from src/src/index.js: given a dispatch function,
produces the single callback prop, which dispatches the one literal
CHANGE_DATA action. -/
def mapDispatchToProps {σ : Type} (d : Action → σ → σ) : DispatchProps σ :=
  { callbackFunc := fun st => d { type := "CHANGE_DATA", data := some "the Presenter changed me" } st }

/-- The action dispatched by the Presenter callback. -/
def changeMeAction : Action :=
  { type := "CHANGE_DATA", data := some "the Presenter changed me" }

/-- A dispatch function over the store state that also logs every action
it is given, used to observe how many dispatches a callback performs. -/
def loggingDispatch (a : Action) (p : JsState × List Action) : JsState × List Action :=
  (dispatch p.1 a, p.2 ++ [a])

/-- On an action whose type is not CHANGE_DATA, dataReducer returns its
input, with the default applied when the input was undefined. -/
theorem dataReducer_unknown (st : Option String) (a : Action)
    (h : a.type ≠ "CHANGE_DATA") :
    dataReducer st a = some (st.getD "") := by
  unfold dataReducer
  split
  next heq => exact absurd heq h
  next => rfl

/-- On an action whose type is not CHANGE_DATA, successReducer returns its
input, with the default applied when the input was undefined. -/
theorem successReducer_unknown (st : Option Bool) (a : Action)
    (h : a.type ≠ "CHANGE_DATA") :
    successReducer st a = st.getD false := by
  unfold successReducer
  split
  next heq => exact absurd heq h
  next => rfl

/-- On an action whose type is not CHANGE_DATA, countReducer returns its
input, with the default applied when the input was undefined. -/
theorem countReducer_unknown (st : Option Int) (a : Action)
    (h : a.type ≠ "CHANGE_DATA") :
    countReducer st a = st.getD 0 := by
  unfold countReducer
  split
  next heq => exact absurd heq h
  next => rfl

/-- The root reducer on an unrecognized action, fully described. -/
theorem reduxApp_unknown (s : Option JsState) (a : Action)
    (h : a.type ≠ "CHANGE_DATA") :
    reduxApp s a
      = { data := some ((s.bind JsState.data).getD "")
          success := some ((s.bind JsState.success).getD false)
          renderCount := some ((s.bind JsState.renderCount).getD 0) } := by
  unfold reduxApp
  rw [dataReducer_unknown _ _ h, successReducer_unknown _ _ h, countReducer_unknown _ _ h]

/-- Dispatching an unrecognized action, fully described. -/
theorem dispatch_unknown (s : JsState) (a : Action)
    (h : a.type ≠ "CHANGE_DATA") :
    dispatch s a
      = { data := some (s.data.getD "")
          success := some (s.success.getD false)
          renderCount := some (s.renderCount.getD 0) } := by
  unfold dispatch
  rw [reduxApp_unknown _ _ h]
  rfl

/-- The success field after a dispatch is the successReducer applied to
the prior success field. -/
theorem dispatch_success (s : JsState) (a : Action) :
    (dispatch s a).success = some (successReducer s.success a) := rfl

/-- The renderCount field after a dispatch is the countReducer applied to
the prior renderCount field. -/
theorem dispatch_renderCount (s : JsState) (a : Action) :
    (dispatch s a).renderCount = some (countReducer s.renderCount a) := rfl

/-- successReducer maps a true state to true for every action. -/
theorem successReducer_some_true (a : Action) :
    successReducer (some true) a = true := by
  unfold successReducer
  split
  next => rfl
  next => rfl

/-- Claim C1: applying the root reducer to any fully-defined prior state
and the action CHANGE_DATA with data X yields exactly the state with data
X, success true and renderCount incremented by one. -/
theorem c1_change_data_updates_all_fields
    (D : String) (S : Bool) (C : Int) (X : String) :
    dispatch (State.toJs { data := D, success := S, renderCount := C })
        { type := "CHANGE_DATA", data := some X }
      = State.toJs { data := X, success := true, renderCount := C + 1 } := by
  rfl

/-- Claim C3: constructing a store from the root reducer with no initial
state yields data empty string, success false, renderCount zero, each
field coming from its reducer default. -/
theorem c3_init_without_state_yields_defaults :
    createStoreState none
      = { data := some "", success := some false, renderCount := some 0 } := by
  rfl

/-- Claim C2: on any action whose type is not CHANGE_DATA, the root
reducer returns every fully-defined state unchanged, field by field. -/
theorem c2_unknown_action_is_identity (s : State) (a : Action)
    (h : a.type ≠ "CHANGE_DATA") :
    dispatch (State.toJs s) a = State.toJs s := by
  rw [dispatch_unknown _ _ h]
  rfl

/-- Witness for claim C2 at a concrete state and action. -/
theorem c2_unknown_action_is_identity_witness :
    dispatch (State.toJs { data := "hello", success := true, renderCount := 7 })
        { type := "SOME_OTHER_ACTION", data := none }
      = State.toJs { data := "hello", success := true, renderCount := 7 } :=
  c2_unknown_action_is_identity
    { data := "hello", success := true, renderCount := 7 }
    { type := "SOME_OTHER_ACTION", data := none } (by decide)

/-- Claim C4: a state whose success field is true keeps success true
after dispatching any single action, and after any sequence of dispatched
actions. -/
theorem c4_success_never_reverts :
    (∀ (s : JsState) (a : Action), s.success = some true →
      (dispatch s a).success = some true)
    ∧ (∀ (l : List Action) (s : JsState), s.success = some true →
      (dispatchAll s l).success = some true) := by
  have hstep : ∀ (s : JsState) (a : Action), s.success = some true →
      (dispatch s a).success = some true := by
    intro s a hs
    rw [dispatch_success, hs, successReducer_some_true]
  refine ⟨hstep, ?_⟩
  intro l
  induction l with
  | nil => intro s hs; exact hs
  | cons a l ih =>
      intro s hs
      exact ih (dispatch s a) (hstep s a hs)

/-- Witness for claim C4 at a concrete state, action and sequence. -/
theorem c4_success_never_reverts_witness :
    (dispatch { data := some "a", success := some true, renderCount := some 1 }
        { type := "ANY_ACTION", data := none }).success = some true
    ∧ (dispatchAll { data := some "a", success := some true, renderCount := some 1 }
        [{ type := "CHANGE_DATA", data := some "b" },
         { type := "ANY_ACTION", data := none }]).success = some true :=
  ⟨c4_success_never_reverts.1 _ _ rfl, c4_success_never_reverts.2 _ _ rfl⟩

/-- Claim C5: dispatching any action whose type is not CHANGE_DATA twice
yields the same state as dispatching it once, while for some state
dispatching a CHANGE_DATA action twice differs from dispatching it once. -/
theorem c5_idempotence :
    (∀ (s : JsState) (a : Action), a.type ≠ "CHANGE_DATA" →
      dispatch (dispatch s a) a = dispatch s a)
    ∧ (∃ (s : JsState) (a : Action), a.type = "CHANGE_DATA" ∧
      dispatch (dispatch s a) a ≠ dispatch s a) := by
  constructor
  · intro s a h
    rw [dispatch_unknown s a h, dispatch_unknown _ a h]
    rfl
  · refine ⟨{ data := some "", success := some false, renderCount := some 0 },
      { type := "CHANGE_DATA", data := some "x" }, rfl, ?_⟩
    decide

/-- Witness for claim C5 at a concrete state and action. -/
theorem c5_idempotence_witness :
    dispatch (dispatch { data := some "x", success := some true, renderCount := some 1 }
        { type := "ANOTHER_ACTION", data := none })
        { type := "ANOTHER_ACTION", data := none }
      = dispatch { data := some "x", success := some true, renderCount := some 1 }
          { type := "ANOTHER_ACTION", data := none } :=
  c5_idempotence.1
    { data := some "x", success := some true, renderCount := some 1 }
    { type := "ANOTHER_ACTION", data := none } (by decide)

/-- Claim C6: countReducer returns the prior count plus one on
CHANGE_DATA and the prior count unchanged on every other action, and the
renderCount field is non-decreasing across every dispatched action. -/
theorem c6_count_monotone :
    (∀ (c : Int) (a : Action), a.type = "CHANGE_DATA" →
      countReducer (some c) a = c + 1)
    ∧ (∀ (c : Int) (a : Action), a.type ≠ "CHANGE_DATA" →
      countReducer (some c) a = c)
    ∧ (∀ (s : JsState) (a : Action) (c : Int), s.renderCount = some c →
      ∃ d : Int, (dispatch s a).renderCount = some d ∧ c ≤ d) := by
  refine ⟨?_, ?_, ?_⟩
  · intro c a h
    obtain ⟨t, dt⟩ := a
    simp only [Action.type] at h
    subst h
    rfl
  · intro c a h
    rw [countReducer_unknown _ _ h]
    rfl
  · intro s a c hc
    by_cases h : a.type = "CHANGE_DATA"
    · refine ⟨c + 1, ?_, by omega⟩
      rw [dispatch_renderCount, hc]
      obtain ⟨t, dt⟩ := a
      simp only [Action.type] at h
      subst h
      rfl
    · refine ⟨c, ?_, le_refl c⟩
      rw [dispatch_renderCount, hc, countReducer_unknown _ _ h]
      rfl

/-- Witness for claim C6 at concrete counts, states and actions. -/
theorem c6_count_monotone_witness :
    countReducer (some 2) { type := "CHANGE_DATA", data := some "x" } = 2 + 1
    ∧ countReducer (some 2) { type := "NOT_CHANGE_DATA", data := none } = 2
    ∧ ∃ d : Int, (dispatch { data := none, success := none, renderCount := some 2 }
        { type := "CHANGE_DATA", data := none }).renderCount = some d ∧ 2 ≤ d :=
  ⟨c6_count_monotone.1 2 { type := "CHANGE_DATA", data := some "x" } rfl,
   c6_count_monotone.2.1 2 { type := "NOT_CHANGE_DATA", data := none } (by decide),
   c6_count_monotone.2.2 { data := none, success := none, renderCount := some 2 }
     { type := "CHANGE_DATA", data := none } 2 rfl⟩

/-- Claim C7: the Presenter message is the data prop when success is true
and the fixed no-data sentence when success is false, and after any
CHANGE_DATA dispatch the message computed from the mapped props equals
the dispatched data value. -/
theorem c7_presenter_message :
    (∀ d : Option String, presenterMessage true d = d)
    ∧ (∀ d : Option String,
      presenterMessage false d = some "We don\x27t have data to show.")
    ∧ (∀ (s : JsState) (X : String),
      presenterMessage
          (truthy (mapStateToProps (dispatch s { type := "CHANGE_DATA", data := some X })).success)
          (mapStateToProps (dispatch s { type := "CHANGE_DATA", data := some X })).data
        = some X) :=
  ⟨fun _ => rfl, fun _ => rfl, fun _ _ => rfl⟩

/-- Claim C8: invoking the callback prop built by mapDispatchToProps
performs exactly one dispatch, of exactly the CHANGE_DATA action carrying
the literal Presenter payload, from every store state. -/
theorem c8_callback_dispatches_exactly_once (s : JsState) :
    (mapDispatchToProps loggingDispatch).callbackFunc (s, [])
      = (dispatch s changeMeAction, [changeMeAction]) := rfl

/-- Claim C9: the initial state of the code omits the data field, and
store construction from it succeeds with data resolved to the empty
string by the dataReducer default. -/
theorem c9_partial_initial_state_defaults :
    initialState.data = none
    ∧ configureStore
      = { data := some "", success := some false, renderCount := some 0 } :=
  ⟨rfl, rfl⟩

/-- Claim C10: a CHANGE_DATA action with no data payload is processed
without failure and without validation: the data field becomes the absent
value, success becomes true, and renderCount is incremented by one. -/
theorem c10_change_data_without_payload (s : JsState) (c : Int)
    (h : s.renderCount = some c) :
    dispatch s { type := "CHANGE_DATA", data := none }
      = { data := none, success := some true, renderCount := some (c + 1) } := by
  unfold dispatch reduxApp
  rw [show Option.bind (some s) JsState.renderCount = s.renderCount from rfl, h]
  rfl

/-- Witness for claim C10 at a concrete state. -/
theorem c10_change_data_without_payload_witness :
    dispatch { data := some "x", success := some false, renderCount := some 4 }
        { type := "CHANGE_DATA", data := none }
      = { data := none, success := some true, renderCount := some (4 + 1) } :=
  c10_change_data_without_payload
    { data := some "x", success := some false, renderCount := some 4 } 4 rfl

end LearnReactRedux
